import Mathlib

/-
Verification development for the AgentRunner repository.

The Python modules are shallowly embedded as Lean definitions:

* `src/process/exceptions.py`        → `AgentError`
* `src/process/agent_process.py`     → `AgentProcess` and its methods
* `src/process/replica_manager.py`   → `ReplicaManager` and its methods
* `src/process/agent_process_input.py` → `validationErrors`, `mkAgentProcessInput`
* `src/tools/mcp_master.py`          → `McpMaster` and its methods
* `src/utils/cleanup.py`             → `ProcessCleanup.cleanup_all_processes`

Modelling conventions:

* Python `dict` objects (insertion ordered, unique keys) are association
  lists `List (String × α)`; `dictGet`, `dictSet`, `dictDel` mirror
  `d.get(k)`, `d[k] = v`, `del d[k]`.
* A method that may raise returns `Except AgentError α`; a raised Python
  exception is the `.error` branch.  Methods that also mutate object state
  return the post-state explicitly.
* Wall-clock timing is abstracted: an `inTime : Bool` environment flag
  records whether a response became available on the output queue within
  the timeout window; the numeric timeout (a Python float in seconds) is
  abstracted to `Option Nat` and only rendered into message text.
* The backend runner of a worker (`runner.get_response`) is an
  environment-supplied function `respond : String → Except String String`,
  the `.error` branch being a raised Python exception with its message.
-/

/-- Single quote character, used when rendering Python repr text. -/
def pyQuote : String := String.singleton (Char.ofNat 39)

/-- Python repr of a list of strings, rendered with single quotes (names
in this system contain no quote characters, so no escaping arises). -/
def pyReprStrList (xs : List String) : String :=
  "[" ++ String.intercalate ", " (xs.map (fun s => pyQuote ++ s ++ pyQuote)) ++ "]"

/-- Python `str(x)` for an optional number of seconds: `None` renders as
the text None. -/
def pyStrOptNat : Option Nat → String
  | none => "None"
  | some n => toString n

/-- Association list lookup, mirroring Python `d.get(k)` / `k in d`. -/
def dictGet (k : String) : List (String × α) → Option α
  | [] => none
  | (k2, v) :: rest => if k2 = k then some v else dictGet k rest

/-- Association list update, mirroring Python `d[k] = v` (replaces in
place when the key is present, appends otherwise). -/
def dictSet (k : String) (v : α) : List (String × α) → List (String × α)
  | [] => [(k, v)]
  | (k2, v2) :: rest => if k2 = k then (k, v) :: rest else (k2, v2) :: dictSet k v rest

/-- Association list removal, mirroring Python `del d[k]` (a dict holds
at most one entry per key). -/
def dictDel (k : String) : List (String × α) → List (String × α)
  | [] => []
  | (k2, v) :: rest => if k2 = k then rest else (k2, v) :: dictDel k rest

/-- Exception classes of `src/process/exceptions.py`.  Each constructor
carries the structured fields the Python class stores; the derived
`message` strings are reconstructed where a property needs them. -/
inductive AgentError where
  | MaxChildrenExceededError (max_children : Nat)
  | ChildAgentNotFoundError (name : String)
  | ChildAgentExistsError (name : String)
  | ChildAgentNotRunningError (name : String)
  | ChildAgentTimeoutError (name : String)
  | ChildAgentOperationError (name operation error : String)
  | UnknownToolError (tool_name : String)
deriving DecidableEq, Repr

/-- Python-level exceptions that can escape `AgentProcess.ask`
(`agent_process.py` lines 95-129): `queue.Empty` from the output-queue
read, and `RuntimeError` from the liveness guard. -/
inductive PyExc where
  | queueEmpty (msg : String)
  | runtimeError (msg : String)
deriving DecidableEq, Repr

/-- Python `isinstance(e, TimeoutError)`.  In CPython, `queue.Empty` is
declared as `class Empty(Exception)` (Lib/queue.py) and is not a subclass
of `TimeoutError`; `RuntimeError` is not either.  So neither exception
that `ask` can raise matches an `except TimeoutError` clause. -/
def PyExc.isInstanceOfTimeoutError : PyExc → Bool
  | .queueEmpty _ => false
  | .runtimeError _ => false

/-- Python `str(e)` for the exceptions above (both are constructed with
their message as the single argument). -/
def PyExc.message : PyExc → String
  | .queueEmpty m => m
  | .runtimeError m => m

/-- State of one worker process (`agent_process.py`).  `alive` is the OS
liveness of `self.proc`; `outputQ` is the content of `self.output_q`
visible to the parent; `respond` is the backend call
`runner.get_response` made inside `_run_agent`, with `.error` a raised
exception (message string). -/
structure AgentProcess where
  name : String
  alive : Bool
  outputQ : List String
  respond : String → Except String String

/-- AgentProcess.is_alive (agent_process.py lines 140-154). -/
def AgentProcess.is_alive (p : AgentProcess) : Bool :=
  p.alive

/-- Response computed by the worker loop for one query
(`_run_agent`, agent_process.py lines 69-73): the backend answer, or an
error-tagged string when the backend call raised. -/
def workerResponse (respond : String → Except String String) (query : String) : String :=
  match respond query with
  | .ok r => r
  | .error e => "[Agent Error]: " ++ e

/-- Message of the `queue.Empty` raised by `ask` on timeout
(agent_process.py lines 125-128). -/
def noResponseMsg (name : String) (timeout : Option Nat) : String :=
  "No response from process " ++ name ++ " within " ++ pyStrOptNat timeout ++ " seconds"

/-- AgentProcess.ask (agent_process.py lines 95-129) combined with the
worker loop it converses with (`_run_agent`, lines 61-78).

The caller first checks liveness (line 110), then enqueues the message
(line 119) and blocks on the output queue with the timeout (line 122).
The worker consumes the message: the exit sentinel breaks the loop
without a reply and the process terminates; any other message produces
`workerResponse` on the output queue.  If a reply was already queued
(stale from an earlier timed-out call) the read returns it immediately;
otherwise the read returns the fresh reply when it arrives within the
timeout (`inTime`), and raises `queue.Empty` when it does not — in which
case the fresh reply stays queued for a later read. -/
def AgentProcess.ask (p : AgentProcess) (message : String) (timeout : Option Nat)
    (inTime : Bool) : Except PyExc String × AgentProcess :=
  if !p.is_alive then
    (.error (.runtimeError ("Process " ++ p.name ++ " is not alive")), p)
  else if message = "__EXIT__" then
    match p.outputQ with
    | r :: rest => (.ok r, { p with outputQ := rest, alive := false })
    | [] => (.error (.queueEmpty (noResponseMsg p.name timeout)), { p with alive := false })
  else
    match p.outputQ with
    | r :: rest =>
      (.ok r, { p with outputQ := rest ++ [workerResponse p.respond message] })
    | [] =>
      if inTime then
        (.ok (workerResponse p.respond message), p)
      else
        (.error (.queueEmpty (noResponseMsg p.name timeout)),
         { p with outputQ := [workerResponse p.respond message] })

/-- AgentProcess.kill (agent_process.py lines 131-138): sends the exit
sentinel and joins; afterwards the process is no longer alive.  Messages
already sitting on the output queue are not drained. -/
def AgentProcess.kill (p : AgentProcess) : AgentProcess :=
  { p with alive := false }

/-- Validated worker descriptor (`agent_process_input.py` lines 9-21).
`child_type` holds the string value of the RunnerType member.  Its
validating constructor `mkAgentProcessInput` appears further below with
the rest of the validation layer. -/
structure AgentProcessInput where
  name : String
  instruction : String
  child_type : String
  tool_names : List String
deriving DecidableEq, Repr

/-- Registry of child workers (`replica_manager.py` lines 28-37):
`children` is the Python dict `name → AgentProcess`. -/
structure ReplicaManager where
  max_children : Nat
  children : List (String × AgentProcess)

/-- ReplicaManager.get_child (replica_manager.py lines 81-99): returns
`self.children.get(name)`.  The result is wrapped in the same effect
type as the other manager methods; this method has no raise path, so it
always returns `.ok`. -/
def ReplicaManager.get_child (m : ReplicaManager) (name : String) :
    Except AgentError (Option AgentProcess) :=
  .ok (dictGet name m.children)

/-- ReplicaManager.create_child (replica_manager.py lines 39-79).
`spawn` is the outcome of the `AgentProcess(input_config=...)`
constructor call on line 72, `.error` being a raised exception with its
message. -/
def ReplicaManager.create_child (m : ReplicaManager) (input_config : AgentProcessInput)
    (spawn : Except String AgentProcess) : Except AgentError Unit × ReplicaManager :=
  if m.children.length ≥ m.max_children then
    (.error (.MaxChildrenExceededError m.max_children), m)
  else if (dictGet input_config.name m.children).isSome then
    (.error (.ChildAgentExistsError input_config.name), m)
  else
    match spawn with
    | .ok p => (.ok (), { m with children := dictSet input_config.name p m.children })
    | .error e => (.error (.ChildAgentOperationError input_config.name "creation" e), m)

/-- ReplicaManager.ask_child (replica_manager.py lines 101-146): absent
name raises ChildAgentNotFoundError; dead process raises
ChildAgentNotRunningError; then `process.ask` runs, a raised
`TimeoutError` would map to ChildAgentTimeoutError (line 139) and any
other exception is wrapped as ChildAgentOperationError with operation
"question" (line 146). -/
def ReplicaManager.ask_child (m : ReplicaManager) (name question : String)
    (timeout : Option Nat) (inTime : Bool) : Except AgentError String × ReplicaManager :=
  match dictGet name m.children with
  | none => (.error (.ChildAgentNotFoundError name), m)
  | some p =>
    if !p.is_alive then
      (.error (.ChildAgentNotRunningError name), m)
    else
      match p.ask question timeout inTime with
      | (.ok r, p2) => (.ok r, { m with children := dictSet name p2 m.children })
      | (.error e, p2) =>
        let m2 : ReplicaManager := { m with children := dictSet name p2 m.children }
        if e.isInstanceOfTimeoutError then
          (.error (.ChildAgentTimeoutError name), m2)
        else
          (.error (.ChildAgentOperationError name "question" e.message), m2)

/-- ReplicaManager.kill_child (replica_manager.py lines 148-178): absent
name raises ChildAgentNotFoundError; otherwise the process is killed if
still alive (tolerating an already-dead one) and the entry is deleted
from the registry. -/
def ReplicaManager.kill_child (m : ReplicaManager) (name : String) :
    Except AgentError Unit × ReplicaManager :=
  match dictGet name m.children with
  | none => (.error (.ChildAgentNotFoundError name), m)
  | some _ => (.ok (), { m with children := dictDel name m.children })

/-- ProcessCleanup.cleanup_all_processes (cleanup.py lines 28-57), the
part that sweeps the replica registry (lines 43-55): every still-alive
child is killed; no entry is ever removed from
`replica_manager.children`. -/
def ProcessCleanup.cleanup_all_processes (m : ReplicaManager) : ReplicaManager :=
  { m with children := m.children.map (fun kv => (kv.1, if kv.2.is_alive then kv.2.kill else kv.2)) }

/-- Tool catalog (`mcp_master.py` lines 15-36): `tool_mapping` is the
dict `self._tool_mapping : tool name → server name`, built once at
startup from the configured servers. -/
structure McpMaster where
  tool_mapping : List (String × String)

/-- McpMaster._get_server_for_tool (mcp_master.py lines 100-112). -/
def McpMaster._get_server_for_tool (m : McpMaster) (tool_name : String) : Option String :=
  dictGet tool_name m.tool_mapping

/-- Loop body of `_get_server_collection_for_tools` (mcp_master.py lines
127-132): `acc` is the Python set `required_servers` being built. -/
def McpMaster.serverCollectionAux (m : McpMaster) (acc : Finset String) :
    List String → Except AgentError (Finset String)
  | [] => .ok acc
  | t :: ts =>
    match m._get_server_for_tool t with
    | none => .error (.UnknownToolError t)
    | some s => m.serverCollectionAux (insert s acc) ts

/-- McpMaster._get_server_collection_for_tools (mcp_master.py lines
114-135): folds the request list into a set of server names, raising
UnknownToolError at the first tool missing from the mapping. -/
def McpMaster._get_server_collection_for_tools (m : McpMaster) (tools : List String) :
    Except AgentError (Finset String) :=
  m.serverCollectionAux ∅ tools

/-- Composed MCP client (mcp_master.py line 170): abstracted to the set
of server names in the `mcpServers` table of its configuration.  The
per-server launch config attached to each name is copied verbatim from
the catalog config and does not affect which servers are reachable. -/
structure Client where
  servers : Finset String
deriving DecidableEq

/-- McpMaster.create_client_for_tools (mcp_master.py lines 137-170):
resolves the required server set, then builds a combined configuration
holding exactly one `mcpServers` entry per resolved server. -/
def McpMaster.create_client_for_tools (m : McpMaster) (tools : List String) :
    Except AgentError Client :=
  match m._get_server_collection_for_tools tools with
  | .error e => .error e
  | .ok servers => .ok ⟨servers⟩

/-- Character class `[a-zA-Z0-9_-]` of the name pattern in
`agent_process_input.py` line 30. -/
def isNameChar (c : Char) : Bool :=
  c.isAlpha || c.isDigit || c = '_' || c = '-'

/-- Python `re.match(r"^[a-zA-Z0-9_-]+$", s)` being truthy.  In Python
`$` also matches just before one trailing newline, so a valid body
followed by a single final newline matches too. -/
def matchesNamePattern (s : String) : Bool :=
  let cs := s.data
  let body := if cs.getLast? = some '\n' then cs.dropLast else cs
  !body.isEmpty && body.all isNameChar

/-- Configuration environment seen by descriptor validation:
`agents` is `config_manager.agents.keys()` and `available_tools` is
`get_mcp_master().get_available_tools()`. -/
structure ConfigEnv where
  agents : List String
  available_tools : List String

/-- Message appended when the runner type is not configured
(agent_process_input.py lines 41-44). -/
def invalidRunnerMsg (env : ConfigEnv) (child_type : String) : String :=
  "Invalid runner type " ++ pyQuote ++ child_type ++ pyQuote ++
    ". Must be one of: " ++ pyReprStrList env.agents

/-- Message appended when requested tools are missing from the catalog
(agent_process_input.py lines 52-58). -/
def invalidToolsMsg (env : ConfigEnv) (tool_names : List String) : String :=
  "Invalid tools requested: " ++
    pyReprStrList (tool_names.filter (fun t => !env.available_tools.contains t)) ++
    ". Available tools: " ++ pyReprStrList env.available_tools

/-- Error list accumulated by `AgentProcessInput.__post_init__`
(agent_process_input.py lines 25-58), in source order: empty name, name
pattern, empty instruction, unknown runner type, unknown tools (the tool
check only runs on a non-empty tool list and contributes a single line
naming every missing tool). -/
def validationErrors (env : ConfigEnv) (name instruction child_type : String)
    (tool_names : List String) : List String :=
  (if name.isEmpty then ["Agent name cannot be empty"] else []) ++
  (if !matchesNamePattern name then
    ["Agent name can only contain letters, numbers, underscores, and hyphens"] else []) ++
  (if instruction.isEmpty || instruction.trim.isEmpty then
    ["Instruction cannot be empty"] else []) ++
  (if !env.agents.contains child_type then [invalidRunnerMsg env child_type] else []) ++
  (if !tool_names.isEmpty &&
      !(tool_names.filter (fun t => !env.available_tools.contains t)).isEmpty then
    [invalidToolsMsg env tool_names] else [])

/-- Constructor of AgentProcessInput including `__post_init__`
(agent_process_input.py lines 23-61): the dataclass object exists only
when the accumulated error list is empty; otherwise one
ChildAgentOperationError is raised whose message joins every accumulated
line with a newline. -/
def mkAgentProcessInput (env : ConfigEnv) (name instruction child_type : String)
    (tool_names : List String) : Except AgentError AgentProcessInput :=
  let errors := validationErrors env name instruction child_type tool_names
  if errors.isEmpty then
    .ok ⟨name, instruction, child_type, tool_names⟩
  else
    .error (.ChildAgentOperationError name "validation" (String.intercalate "\n" errors))

/-- One registry-mutating call on the ReplicaManager, as issued by a
caller: a create (with the spawn outcome of the AgentProcess
constructor) or a kill.  A raised error propagates to the caller and
leaves the registry in the state the method left it. -/
inductive ManagerOp where
  | create (input_config : AgentProcessInput) (spawn : Except String AgentProcess)
  | kill (name : String)

/-- Registry state after one call. -/
def ManagerOp.apply (m : ReplicaManager) : ManagerOp → ReplicaManager
  | .create input_config spawn => (m.create_child input_config spawn).2
  | .kill name => (m.kill_child name).2

/-- Registry state after a sequence of calls. -/
def runOps (m : ReplicaManager) : List ManagerOp → ReplicaManager
  | [] => m
  | op :: ops => runOps (op.apply m) ops

/-- Registry invariant: size bounded by the capacity and registered
names unique. -/
def RegistryInv (m : ReplicaManager) : Prop :=
  m.children.length ≤ m.max_children ∧ (m.children.map Prod.fst).Nodup

/-! Helper lemmas about the dict model. -/

theorem dictGet_eq_none_iff (k : String) (l : List (String × α)) :
    dictGet k l = none ↔ k ∉ l.map Prod.fst := by
  induction l with
  | nil => simp [dictGet]
  | cons kv rest ih =>
    obtain ⟨k2, v⟩ := kv
    by_cases h : k2 = k
    · subst h
      simp [dictGet]
    · simp [dictGet, h, ih, Ne.symm h]

theorem dictSet_of_not_mem (k : String) (v : α) (l : List (String × α))
    (h : dictGet k l = none) : dictSet k v l = l ++ [(k, v)] := by
  induction l with
  | nil => simp [dictSet]
  | cons kv rest ih =>
    obtain ⟨k2, v2⟩ := kv
    by_cases hk : k2 = k
    · subst hk
      simp [dictGet] at h
    · simp [dictGet, hk] at h
      simp [dictSet, hk, ih h]

theorem dictGet_dictSet_self (k : String) (v : α) (l : List (String × α)) :
    dictGet k (dictSet k v l) = some v := by
  induction l with
  | nil => simp [dictSet, dictGet]
  | cons kv rest ih =>
    obtain ⟨k2, v2⟩ := kv
    by_cases hk : k2 = k
    · subst hk
      simp [dictSet, dictGet]
    · simp [dictSet, dictGet, hk, ih]

theorem map_fst_dictSet_of_mem (k : String) (v : α) (l : List (String × α))
    (h : (dictGet k l).isSome) : (dictSet k v l).map Prod.fst = l.map Prod.fst := by
  induction l with
  | nil => simp [dictGet] at h
  | cons kv rest ih =>
    obtain ⟨k2, v2⟩ := kv
    by_cases hk : k2 = k
    · subst hk
      simp [dictSet]
    · simp [dictGet, hk] at h
      simp [dictSet, hk, ih h]

theorem dictDel_sublist (k : String) (l : List (String × α)) :
    (dictDel k l).Sublist l := by
  induction l with
  | nil => simp [dictDel]
  | cons kv rest ih =>
    obtain ⟨k2, v⟩ := kv
    by_cases hk : k2 = k
    · simp [dictDel, hk]
    · simpa [dictDel, hk] using ih.cons₂ (k2, v)

theorem dictGet_map_value (k : String) (g : α → β) (l : List (String × α)) :
    dictGet k (l.map (fun kv => (kv.1, g kv.2))) = (dictGet k l).map g := by
  induction l with
  | nil => simp [dictGet]
  | cons kv rest ih =>
    obtain ⟨k2, v⟩ := kv
    by_cases hk : k2 = k
    · subst hk
      simp [dictGet]
    · simp [dictGet, hk, ih]

/-! Helper lemmas about registry-invariant preservation. -/

theorem create_child_preserves_inv (m : ReplicaManager) (cfg : AgentProcessInput)
    (spawn : Except String AgentProcess) (h : RegistryInv m) :
    RegistryInv (m.create_child cfg spawn).2 := by
  unfold ReplicaManager.create_child
  by_cases hcap : m.children.length ≥ m.max_children
  · simpa [hcap] using h
  · by_cases hdup : (dictGet cfg.name m.children).isSome
    · simpa [hcap, hdup] using h
    · match spawn with
      | .error e => simpa [hcap, hdup] using h
      | .ok p =>
        simp only [hcap, hdup, if_false, Bool.false_eq_true, if_neg, ite_false]
        have hnone : dictGet cfg.name m.children = none := by
          cases hg : dictGet cfg.name m.children with
          | none => rfl
          | some q => simp [hg] at hdup
        have hset := dictSet_of_not_mem cfg.name p m.children hnone
        have hmem : cfg.name ∉ m.children.map Prod.fst :=
          (dictGet_eq_none_iff cfg.name m.children).mp hnone
        constructor
        · simp only [RegistryInv] at h ⊢
          simp [hcap, hset]
          omega
        · simp only [RegistryInv] at h ⊢
          simp [hcap, hset, List.nodup_append, hmem, h.2]

theorem kill_child_preserves_inv (m : ReplicaManager) (name : String)
    (h : RegistryInv m) : RegistryInv (m.kill_child name).2 := by
  unfold ReplicaManager.kill_child
  cases hg : dictGet name m.children with
  | none => simpa using h
  | some p =>
    have hsub : (dictDel name m.children).Sublist m.children := dictDel_sublist name m.children
    constructor
    · exact le_trans hsub.length_le h.1
    · exact h.2.sublist (hsub.map Prod.fst)

theorem runOps_preserves_inv (ops : List ManagerOp) :
    ∀ m : ReplicaManager, RegistryInv m → RegistryInv (runOps m ops) := by
  induction ops with
  | nil => intro m h; simpa [runOps] using h
  | cons op ops ih =>
    intro m h
    have hstep : RegistryInv (op.apply m) := by
      cases op with
      | create cfg spawn => exact create_child_preserves_inv m cfg spawn h
      | kill name => exact kill_child_preserves_inv m name h
    simpa [runOps] using ih (op.apply m) hstep

/-! Helper lemmas about server resolution. -/

theorem serverCollectionAux_ok (m : McpMaster) (ts : List String) :
    ∀ acc : Finset String, (∀ t ∈ ts, (m._get_server_for_tool t).isSome) →
      m.serverCollectionAux acc ts =
        .ok (acc ∪ (ts.filterMap (fun t => m._get_server_for_tool t)).toFinset) := by
  induction ts with
  | nil => intro acc _; simp [McpMaster.serverCollectionAux]
  | cons t ts ih =>
    intro acc h
    obtain ⟨s, hs⟩ := Option.isSome_iff_exists.mp (h t (List.mem_cons_self t ts))
    have hrest : ∀ u ∈ ts, (m._get_server_for_tool u).isSome := fun u hu =>
      h u (List.mem_cons_of_mem t hu)
    simp only [McpMaster.serverCollectionAux, hs]
    rw [ih (insert s acc) hrest]
    simp [List.filterMap_cons, hs, Finset.insert_union, Finset.union_insert]

theorem serverCollectionAux_err (m : McpMaster) (ts : List String) :
    ∀ (acc : Finset String) (t0 : String),
      ts.find? (fun t => (m._get_server_for_tool t).isNone) = some t0 →
      m.serverCollectionAux acc ts = .error (.UnknownToolError t0) := by
  induction ts with
  | nil => intro acc t0 h; simp at h
  | cons t ts ih =>
    intro acc t0 h
    cases hs : m._get_server_for_tool t with
    | none =>
      have : t0 = t := by
        rw [List.find?_cons_of_pos _ (by simp [hs])] at h
        exact (Option.some_inj.mp h).symm
      subst this
      simp only [McpMaster.serverCollectionAux, hs]
    | some s =>
      rw [List.find?_cons_of_neg _ (by simp [hs])] at h
      simp only [McpMaster.serverCollectionAux, hs]
      exact ih (insert s acc) t0 h

/-! Concrete fixtures used by witnesses and counterexamples. -/

/-- Sample worker process whose backend echoes the query. -/
def echoProc : AgentProcess :=
  { name := "worker-1", alive := true, outputQ := [],
    respond := fun q => .ok ("echo: " ++ q) }

/-- Sample descriptor named agent_1. -/
def cfgA : AgentProcessInput := ⟨"agent_1", "do work", "gemini", []⟩

/-- Sample descriptor named agent_2. -/
def cfgB : AgentProcessInput := ⟨"agent_2", "do work", "gemini", []⟩

/-- Sample registry at capacity one, holding agent_1. -/
def fullMgr : ReplicaManager := ⟨1, [("agent_1", echoProc)]⟩

/-- Sample empty registry. -/
def emptyMgr : ReplicaManager := ⟨1, []⟩

/-- C2: from an empty registry with capacity max_children, any sequence
of create_child and kill_child calls keeps the registry size at most
max_children with registered names unique, and a create_child call made
while the registry is at capacity raises MaxChildrenExceededError and
registers nothing (the registry is returned unchanged). -/
theorem replica_registry_invariant_and_capacity :
    (∀ (max : Nat) (ops : List ManagerOp), RegistryInv (runOps ⟨max, []⟩ ops)) ∧
    (∀ (m : ReplicaManager) (cfg : AgentProcessInput) (spawn : Except String AgentProcess),
      m.children.length ≥ m.max_children →
      m.create_child cfg spawn = (.error (.MaxChildrenExceededError m.max_children), m)) := by
  constructor
  · intro max ops
    exact runOps_preserves_inv ops ⟨max, []⟩ ⟨Nat.zero_le _, List.nodup_nil⟩
  · intro m cfg spawn h
    unfold ReplicaManager.create_child
    simp [h]

/-- C2 witness: a concrete call sequence at capacity one keeps the
invariant, and a create on a full registry reports the capacity error. -/
theorem replica_registry_invariant_and_capacity_witness :
    RegistryInv (runOps ⟨1, []⟩
      [.create cfgA (.ok echoProc), .create cfgB (.ok echoProc),
       .kill "agent_1", .create cfgB (.ok echoProc)]) ∧
    (fullMgr.create_child cfgB (.ok echoProc)).1 = .error (.MaxChildrenExceededError 1) := by
  constructor
  · exact replica_registry_invariant_and_capacity.1 1 _
  · rw [replica_registry_invariant_and_capacity.2 fullMgr cfgB (.ok echoProc) (by decide)]
    rfl

/-- C3 counterexample: on a registry that is full and already holds the
descriptor name, create_child raises MaxChildrenExceededError — the
capacity check runs before the duplicate-name check — so this duplicate
create does not fail with ChildAgentExistsError. -/
theorem create_child_duplicate_at_capacity_counterexample :
    (fullMgr.create_child cfgA (.ok echoProc)).1 = .error (.MaxChildrenExceededError 1) ∧
    (fullMgr.create_child cfgA (.ok echoProc)).1 ≠ .error (.ChildAgentExistsError "agent_1") := by
  constructor
  · rfl
  · intro h
    rw [show (fullMgr.create_child cfgA (.ok echoProc)).1
          = .error (.MaxChildrenExceededError 1) from rfl] at h
    simp at h

/-- C3 (amended): on a registry below capacity whose registry already
holds the descriptor name, create_child fails with
ChildAgentExistsError and leaves the registry unchanged; at capacity
the same call fails with MaxChildrenExceededError instead, also leaving
the registry unchanged. -/
theorem create_child_duplicate_below_capacity (m : ReplicaManager)
    (cfg : AgentProcessInput) (spawn : Except String AgentProcess)
    (hcap : m.children.length < m.max_children)
    (hdup : (dictGet cfg.name m.children).isSome) :
    m.create_child cfg spawn = (.error (.ChildAgentExistsError cfg.name), m) := by
  unfold ReplicaManager.create_child
  simp [Nat.not_le.mpr hcap, hdup]

/-- C3 witness: duplicate create below capacity at a concrete registry. -/
theorem create_child_duplicate_below_capacity_witness :
    (ReplicaManager.create_child ⟨2, [("agent_1", echoProc)]⟩ cfgA (.ok echoProc)).1
      = .error (.ChildAgentExistsError "agent_1") := by
  rw [create_child_duplicate_below_capacity ⟨2, [("agent_1", echoProc)]⟩ cfgA (.ok echoProc)
        (by decide) (by decide)]
  rfl

/-- C4 counterexample: get_child on an absent name returns None as a
normal value (the method has no raise path), so it does not fail with
ChildAgentNotFoundError as the claim states. -/
theorem get_child_absent_returns_none_counterexample :
    emptyMgr.get_child "ghost" = .ok none ∧
    emptyMgr.get_child "ghost" ≠ .error (.ChildAgentNotFoundError "ghost") := by
  refine ⟨rfl, ?_⟩
  intro h
  rw [show emptyMgr.get_child "ghost" = .ok none from rfl] at h
  simp at h

/-- C4 (amended): for every name that is not a key of the registry,
get_child returns None without raising, while ask_child fails with
ChildAgentNotFoundError and leaves the manager unchanged. -/
theorem absent_name_get_none_ask_not_found (m : ReplicaManager)
    (name question : String) (timeout : Option Nat) (inTime : Bool)
    (h : dictGet name m.children = none) :
    m.get_child name = .ok none ∧
    m.ask_child name question timeout inTime = (.error (.ChildAgentNotFoundError name), m) := by
  constructor
  · simp [ReplicaManager.get_child, h]
  · simp [ReplicaManager.ask_child, h]

/-- C4 witness: the absent name at a concrete empty registry. -/
theorem absent_name_get_none_ask_not_found_witness :
    emptyMgr.get_child "ghost" = .ok none ∧
    emptyMgr.ask_child "ghost" "hello" (some 1) true
      = (.error (.ChildAgentNotFoundError "ghost"), emptyMgr) :=
  absent_name_get_none_ask_not_found emptyMgr "ghost" "hello" (some 1) true rfl

/-- C1: evaluation at the failing input.  With a registered, alive child
whose reply does not arrive within the timeout, ask_child raises
ChildAgentOperationError with operation "question" wrapping the
queue.Empty message — not ChildAgentTimeoutError — because the
queue.Empty raised by AgentProcess.ask is not a TimeoutError, so the
except TimeoutError clause of replica_manager.py line 139 never matches
and the except Exception clause of line 142 does.  The child stays in
the registry under the same name. -/
theorem ask_child_timeout_wraps_as_operation_error :
    (ReplicaManager.ask_child ⟨1, [("worker-1", echoProc)]⟩ "worker-1" "hi" (some 1) false).1
      = .error (.ChildAgentOperationError "worker-1" "question"
          (noResponseMsg "worker-1" (some 1))) ∧
    (ReplicaManager.ask_child ⟨1, [("worker-1", echoProc)]⟩ "worker-1" "hi" (some 1) false).1
      ≠ .error (.ChildAgentTimeoutError "worker-1") ∧
    ((ReplicaManager.ask_child ⟨1, [("worker-1", echoProc)]⟩ "worker-1" "hi"
        (some 1) false).2.children.map Prod.fst) = ["worker-1"] := by
  refine ⟨rfl, ?_, rfl⟩
  intro h
  rw [show (ReplicaManager.ask_child ⟨1, [("worker-1", echoProc)]⟩ "worker-1" "hi"
        (some 1) false).1
      = .error (.ChildAgentOperationError "worker-1" "question"
          (noResponseMsg "worker-1" (some 1))) from rfl] at h
  simp at h

/-- C5: for a request list whose every tool is in the catalog mapping,
create_client_for_tools returns a composed client whose server set is
exactly the set of servers the mapping assigns to the requested tools. -/
theorem create_client_for_tools_exact_servers (m : McpMaster) (tools : List String)
    (h : ∀ t ∈ tools, (m._get_server_for_tool t).isSome) :
    m.create_client_for_tools tools =
      .ok ⟨(tools.filterMap (fun t => m._get_server_for_tool t)).toFinset⟩ := by
  unfold McpMaster.create_client_for_tools McpMaster._get_server_collection_for_tools
  rw [serverCollectionAux_ok m tools ∅ h]
  simp

/-- Sample catalog: server A hosts echo and ping, server B hosts search. -/
def demoCatalog : McpMaster := ⟨[("echo", "A"), ("ping", "A"), ("search", "B")]⟩

/-- C5 witness: with servers A(echo, ping) and B(search), a client for
echo and search spans exactly the server set A, B. -/
theorem create_client_for_tools_exact_servers_witness :
    demoCatalog.create_client_for_tools ["echo", "search"] = .ok ⟨{"A", "B"}⟩ := by
  rw [create_client_for_tools_exact_servers demoCatalog ["echo", "search"] (by decide)]
  simp only [Except.ok.injEq, Client.mk.injEq]
  decide

/-- C6: for every request list, if every tool name is in the catalog
mapping then _get_server_collection_for_tools returns exactly the set of
distinct server names the mapping assigns to the requested tools, and if
some name is absent it fails with UnknownToolError naming the first
unrecognized name in list order. -/
theorem resolve_servers_exact_and_first_unknown (m : McpMaster) (tools : List String) :
    ((∀ t ∈ tools, (m._get_server_for_tool t).isSome) →
      m._get_server_collection_for_tools tools =
        .ok ((tools.filterMap (fun t => m._get_server_for_tool t)).toFinset)) ∧
    (∀ t0, tools.find? (fun t => (m._get_server_for_tool t).isNone) = some t0 →
      m._get_server_collection_for_tools tools = .error (.UnknownToolError t0)) := by
  constructor
  · intro h
    unfold McpMaster._get_server_collection_for_tools
    rw [serverCollectionAux_ok m tools ∅ h]
    simp
  · intro t0 h
    exact serverCollectionAux_err m tools ∅ t0 h

/-- C6 witness: on the sample catalog, an all-known request resolves to
exactly the two hosting servers, and a request with one unknown name
among valid ones fails with UnknownToolError naming that name. -/
theorem resolve_servers_exact_and_first_unknown_witness :
    demoCatalog._get_server_collection_for_tools ["echo", "ping", "search"]
      = .ok {"A", "B"} ∧
    demoCatalog._get_server_collection_for_tools ["echo", "bogus", "search"]
      = .error (.UnknownToolError "bogus") := by
  constructor
  · rw [(resolve_servers_exact_and_first_unknown demoCatalog ["echo", "ping", "search"]).1
        (by decide)]
    simp only [Except.ok.injEq]
    decide
  · exact (resolve_servers_exact_and_first_unknown demoCatalog ["echo", "bogus", "search"]).2
      "bogus" (by decide)

/-- C7: descriptor validation accumulates every check into one error
list without short-circuiting: construction succeeds (and the descriptor
object exists) exactly when the list is empty; otherwise exactly one
ChildAgentOperationError is raised, naming the worker, with operation
"validation" and a message joining every accumulated violation with
newlines; and each failing check contributes its line to that list
regardless of the other checks — in particular an empty name and an
unknown runner type each contribute their line simultaneously. -/
theorem descriptor_validation_aggregates_all_violations
    (env : ConfigEnv) (name instruction child_type : String) (tool_names : List String) :
    (validationErrors env name instruction child_type tool_names = [] →
      mkAgentProcessInput env name instruction child_type tool_names =
        .ok ⟨name, instruction, child_type, tool_names⟩) ∧
    (validationErrors env name instruction child_type tool_names ≠ [] →
      mkAgentProcessInput env name instruction child_type tool_names =
        .error (.ChildAgentOperationError name "validation"
          (String.intercalate "\n"
            (validationErrors env name instruction child_type tool_names)))) ∧
    (name.isEmpty = true →
      "Agent name cannot be empty"
        ∈ validationErrors env name instruction child_type tool_names) ∧
    (matchesNamePattern name = false →
      "Agent name can only contain letters, numbers, underscores, and hyphens"
        ∈ validationErrors env name instruction child_type tool_names) ∧
    ((instruction.isEmpty || instruction.trim.isEmpty) = true →
      "Instruction cannot be empty"
        ∈ validationErrors env name instruction child_type tool_names) ∧
    (env.agents.contains child_type = false →
      invalidRunnerMsg env child_type
        ∈ validationErrors env name instruction child_type tool_names) ∧
    (tool_names.isEmpty = false →
      (tool_names.filter (fun t => !env.available_tools.contains t)).isEmpty = false →
      invalidToolsMsg env tool_names
        ∈ validationErrors env name instruction child_type tool_names) := by
  refine ⟨?_, ?_, ?_, ?_, ?_, ?_, ?_⟩
  · intro h
    simp [mkAgentProcessInput, h]
  · intro h
    have hne : (validationErrors env name instruction child_type tool_names).isEmpty = false := by
      cases hl : validationErrors env name instruction child_type tool_names with
      | nil => exact absurd hl h
      | cons a l => simp
    simp [mkAgentProcessInput, hne]
  · intro h
    simp [validationErrors, List.mem_append, h]
  · intro h
    simp [validationErrors, List.mem_append, h]
  · intro h
    simp [validationErrors, List.mem_append, h]
  · intro h
    have hmem : child_type ∉ env.agents := by simpa using h
    simp [validationErrors, List.mem_append, h, hmem]
  · intro h1 h2
    have hne1 : tool_names ≠ [] := by
      intro hEq
      rw [hEq] at h1
      simp at h1
    have hex : ∃ x ∈ tool_names, x ∉ env.available_tools := by
      have hne2 : tool_names.filter (fun t => !env.available_tools.contains t) ≠ [] := by
        intro hEq
        rw [hEq] at h2
        simp at h2
      obtain ⟨x, hx⟩ := List.exists_mem_of_ne_nil _ hne2
      obtain ⟨hx1, hx2⟩ := List.mem_filter.mp hx
      exact ⟨x, hx1, by simpa using hx2⟩
    simp [validationErrors, List.mem_append, h1, h2, hne1, hex]

/-- Sample validation environment: one configured runner kind and one
catalog tool. -/
def env0 : ConfigEnv := ⟨["gemini"], ["echo"]⟩

/-- C7 witness: a descriptor with an empty name and an unknown runner
type raises one aggregated validation error whose line list contains
both the empty-name violation and the runner-type violation. -/
theorem descriptor_validation_aggregates_all_violations_witness :
    mkAgentProcessInput env0 "" "think" "bogus" [] =
      .error (.ChildAgentOperationError "" "validation"
        (String.intercalate "\n" (validationErrors env0 "" "think" "bogus" []))) ∧
    "Agent name cannot be empty" ∈ validationErrors env0 "" "think" "bogus" [] ∧
    invalidRunnerMsg env0 "bogus" ∈ validationErrors env0 "" "think" "bogus" [] := by
  refine ⟨?_, ?_, ?_⟩
  · exact (descriptor_validation_aggregates_all_violations env0 "" "think" "bogus" []).2.1
      (by decide)
  · exact (descriptor_validation_aggregates_all_violations env0 "" "think" "bogus" []).2.2.1
      (by decide)
  · exact (descriptor_validation_aggregates_all_violations
      env0 "" "think" "bogus" []).2.2.2.2.2.1 (by decide)

/-- C8: when the backend call for a query raises, the worker loop
converts the exception into an error-tagged response string that
ask_child returns as a normal value, the worker process stays alive in
the registry under the same state, and a following question on the same
worker is answered normally. -/
theorem worker_error_tagged_response_and_usable
    (m : ReplicaManager) (name q q2 r e : String) (p : AgentProcess)
    (t t2 : Option Nat)
    (hget : dictGet name m.children = some p)
    (halive : p.alive = true) (hq : p.outputQ = [])
    (hresp : p.respond q = .error e) (hq1 : q ≠ "__EXIT__")
    (hresp2 : p.respond q2 = .ok r) (hq2 : q2 ≠ "__EXIT__") :
    (m.ask_child name q t true).1 = .ok ("[Agent Error]: " ++ e) ∧
    dictGet name (m.ask_child name q t true).2.children = some p ∧
    ((m.ask_child name q t true).2.ask_child name q2 t2 true).1 = .ok r := by
  have hask : p.ask q t true = (.ok ("[Agent Error]: " ++ e), p) := by
    simp [AgentProcess.ask, AgentProcess.is_alive, halive, hq1, hq, workerResponse, hresp]
  have hchild : m.ask_child name q t true =
      (.ok ("[Agent Error]: " ++ e), { m with children := dictSet name p m.children }) := by
    simp [ReplicaManager.ask_child, hget, AgentProcess.is_alive, halive, hask]
  have hget2 : dictGet name (m.ask_child name q t true).2.children = some p := by
    rw [hchild]
    exact dictGet_dictSet_self name p m.children
  refine ⟨by rw [hchild], hget2, ?_⟩
  rw [hchild]
  simp [ReplicaManager.ask_child, dictGet_dictSet_self, AgentProcess.ask,
    AgentProcess.is_alive, halive, hq2, hq, workerResponse, hresp2]

/-- Worker whose backend raises on the query boom and answers otherwise. -/
def flakyProc : AgentProcess :=
  { name := "worker-2", alive := true, outputQ := [],
    respond := fun q => if q = "boom" then .error "backend down" else .ok ("echo: " ++ q) }

/-- C8 witness: on a concrete worker whose backend raises for the query
boom, ask_child returns the tagged string as a value and the next
question is answered normally. -/
theorem worker_error_tagged_response_and_usable_witness :
    (ReplicaManager.ask_child ⟨1, [("worker-2", flakyProc)]⟩ "worker-2" "boom"
        (some 5) true).1 = .ok ("[Agent Error]: " ++ "backend down") ∧
    dictGet "worker-2" (ReplicaManager.ask_child ⟨1, [("worker-2", flakyProc)]⟩ "worker-2"
        "boom" (some 5) true).2.children = some flakyProc ∧
    ((ReplicaManager.ask_child ⟨1, [("worker-2", flakyProc)]⟩ "worker-2" "boom"
        (some 5) true).2.ask_child "worker-2" "hi" (some 5) true).1
      = .ok ("echo: " ++ "hi") :=
  worker_error_tagged_response_and_usable ⟨1, [("worker-2", flakyProc)]⟩ "worker-2"
    "boom" "hi" ("echo: " ++ "hi") "backend down" flakyProc (some 5) (some 5)
    rfl rfl rfl rfl (by decide) rfl (by decide)

/-- C9: after an ask call on a worker misses its timeout window, the
response the worker eventually produces stays queued on the response
channel, and the next ask call on that same worker returns that stale
earlier response — so whenever the two answers differ, the second call
does not return the answer to its own question. -/
theorem stale_response_read_by_next_ask
    (m : ReplicaManager) (name q1 q2 : String) (p : AgentProcess)
    (t1 t2 : Option Nat) (b2 : Bool)
    (hget : dictGet name m.children = some p)
    (halive : p.alive = true) (hq : p.outputQ = [])
    (hq1 : q1 ≠ "__EXIT__") (hq2 : q2 ≠ "__EXIT__") :
    dictGet name (m.ask_child name q1 t1 false).2.children =
      some { p with outputQ := [workerResponse p.respond q1] } ∧
    ((m.ask_child name q1 t1 false).2.ask_child name q2 t2 b2).1 =
      .ok (workerResponse p.respond q1) ∧
    (workerResponse p.respond q1 ≠ workerResponse p.respond q2 →
      ((m.ask_child name q1 t1 false).2.ask_child name q2 t2 b2).1 ≠
        .ok (workerResponse p.respond q2)) := by
  have hask1 : p.ask q1 t1 false =
      (.error (.queueEmpty (noResponseMsg p.name t1)),
       { p with outputQ := [workerResponse p.respond q1] }) := by
    simp [AgentProcess.ask, AgentProcess.is_alive, halive, hq1, hq]
  have hchild1 : (m.ask_child name q1 t1 false).2 =
      { m with children := dictSet name { p with outputQ := [workerResponse p.respond q1] } m.children } := by
    simp [ReplicaManager.ask_child, hget, AgentProcess.is_alive, halive, hask1,
      PyExc.isInstanceOfTimeoutError]
  have hget1 : dictGet name (m.ask_child name q1 t1 false).2.children =
      some { p with outputQ := [workerResponse p.respond q1] } := by
    rw [hchild1]
    exact dictGet_dictSet_self name _ m.children
  have hsecond : ((m.ask_child name q1 t1 false).2.ask_child name q2 t2 b2).1 =
      .ok (workerResponse p.respond q1) := by
    rw [hchild1]
    simp [ReplicaManager.ask_child, dictGet_dictSet_self, AgentProcess.ask,
      AgentProcess.is_alive, halive, hq2]
  refine ⟨hget1, hsecond, ?_⟩
  intro hne hcontra
  rw [hsecond] at hcontra
  exact hne (Except.ok.inj hcontra)

/-- Worker whose backend names the query inside its answer, so answers
to distinct questions differ. -/
def namerProc : AgentProcess :=
  { name := "worker-3", alive := true, outputQ := [],
    respond := fun q => .ok ("answer to " ++ q) }

/-- C9 witness: on a concrete worker, the answer to the first (timed
out) question is read by the second ask call and differs from the
own answer of the second question. -/
theorem stale_response_read_by_next_ask_witness :
    dictGet "worker-3" (ReplicaManager.ask_child ⟨1, [("worker-3", namerProc)]⟩ "worker-3"
        "first" (some 1) false).2.children =
      some { namerProc with outputQ := [workerResponse namerProc.respond "first"] } ∧
    ((ReplicaManager.ask_child ⟨1, [("worker-3", namerProc)]⟩ "worker-3" "first"
        (some 1) false).2.ask_child "worker-3" "second" (some 1) true).1 =
      .ok (workerResponse namerProc.respond "first") ∧
    ((ReplicaManager.ask_child ⟨1, [("worker-3", namerProc)]⟩ "worker-3" "first"
        (some 1) false).2.ask_child "worker-3" "second" (some 1) true).1 ≠
      .ok (workerResponse namerProc.respond "second") := by
  have h := stale_response_read_by_next_ask ⟨1, [("worker-3", namerProc)]⟩ "worker-3"
    "first" "second" namerProc (some 1) (some 1) true rfl rfl rfl (by decide) (by decide)
  exact ⟨h.1, h.2.1, h.2.2 (by decide)⟩

/-- C10: the cleanup sweep kills every still-alive child but removes no
registry entry: the registered names are unchanged, and ask_child on any
name that was registered before the sweep fails with
ChildAgentNotRunningError (the not-found path is unreachable for it). -/
theorem cleanup_preserves_registry_kills_children
    (m : ReplicaManager) (name question : String) (t : Option Nat) (b : Bool)
    (p : AgentProcess) :
    ((ProcessCleanup.cleanup_all_processes m).children.map Prod.fst
      = m.children.map Prod.fst) ∧
    (dictGet name m.children = some p →
      ((ProcessCleanup.cleanup_all_processes m).ask_child name question t b).1 =
        .error (.ChildAgentNotRunningError name)) := by
  constructor
  · simp [ProcessCleanup.cleanup_all_processes, List.map_map]
  · intro hget
    have hswept : dictGet name (ProcessCleanup.cleanup_all_processes m).children =
        some (if p.is_alive then p.kill else p) := by
      unfold ProcessCleanup.cleanup_all_processes
      rw [dictGet_map_value name (fun q => if q.is_alive then q.kill else q) m.children, hget]
      rfl
    have hdead : (if p.is_alive then p.kill else p).is_alive = false := by
      cases hal : p.alive <;>
        simp [AgentProcess.is_alive, AgentProcess.kill, hal]
    simp [ReplicaManager.ask_child, hswept, hdead]

/-- C10 witness: sweeping a registry holding one alive child keeps its
name registered and turns ask_child into the not-running failure. -/
theorem cleanup_preserves_registry_kills_children_witness :
    ((ProcessCleanup.cleanup_all_processes fullMgr).children.map Prod.fst
      = fullMgr.children.map Prod.fst) ∧
    ((ProcessCleanup.cleanup_all_processes fullMgr).ask_child "agent_1" "hello"
        (some 1) true).1 = .error (.ChildAgentNotRunningError "agent_1") := by
  have h := cleanup_preserves_registry_kills_children fullMgr "agent_1" "hello"
    (some 1) true echoProc
  exact ⟨h.1, h.2 rfl⟩
